import Mathlib

/-!
Verification of the Data Empire tick engine.

Shallow embedding of `src/game/engine.ts` and `src/game/formulas.ts`
(with balance constants from the balance module). JavaScript numbers are
modelled as exact rationals (ℚ); `Math.max`/`Math.min` become `max`/`min`,
`Math.floor`/`Math.ceil` become `Int.floor`/`Int.ceil`. The non-seeded
`Math.random()` stream and the id/time generators are passed explicitly
as an `Rng` oracle, so every run of the engine is a pure function of the
snapshot and the oracle.
-/

namespace DataEmpire

/-- Quality metrics of a dataset: timeliness, accuracy, completeness.
The same shape is used for SLA targets and for incident metric impacts
(the source uses structurally identical record types). -/
structure Metrics where
  T : ℚ
  A : ℚ
  C : ℚ
  deriving DecidableEq, Repr

/-- Risk rating of a dataset (`'low' | 'medium' | 'high'`). -/
inductive RiskRating where
  | low
  | medium
  | high
  deriving DecidableEq, Repr

/-- Dataset status (`'ok' | 'warning' | 'failing'`). -/
inductive DatasetStatus where
  | ok
  | warning
  | failing
  deriving DecidableEq, Repr

/-- A dataset, as in `src/types/dataset.ts` (the optional
`unlock_requirement` field is never read by the engine and is omitted). -/
structure Dataset where
  id : String
  name : String
  description : String
  base_dc : ℚ
  volume : ℚ
  risk_rating : RiskRating
  sla_targets : Metrics
  current_metrics : Metrics
  pipelines_installed : List String
  currentSLA : ℚ
  status : DatasetStatus
  deriving DecidableEq, Repr

/-- Effects provided by a staff member, as in `src/types/staff.ts`. -/
structure StaffEffects where
  global_T_bonus : ℚ
  global_A_bonus : ℚ
  global_C_bonus : ℚ
  incident_resolution_speed : ℚ
  dc_generation_bonus : ℚ
  deriving DecidableEq, Repr

/-- A hired staff member (role kept as a plain string; the engine never
inspects it). -/
structure Staff where
  id : String
  name : String
  role : String
  description : String
  cost_to_hire : ℚ
  salary_per_minute : ℚ
  effects : StaffEffects
  deriving DecidableEq, Repr

/-- Incident type tag (`'data-delay' | 'corrupted-batch' | 'pipeline-failure'`). -/
inductive IncidentType where
  | dataDelay
  | corruptedBatch
  | pipelineFailure
  deriving DecidableEq, Repr

/-- An active incident attached to one dataset. -/
structure Incident where
  id : String
  type : IncidentType
  title : String
  description : String
  dataset_id : String
  metric_impact : Metrics
  base_resolution_time : ℚ
  resolution_progress : ℚ
  started_at : ℤ
  halts_dc_generation : Bool
  deriving DecidableEq, Repr

/-- A blocking event; the engine only ever tests it against null, so the
payload fields are irrelevant to the claims. -/
structure Event where
  id : String
  title : String
  message : String
  deriving DecidableEq, Repr

/-! Balance constants (from the balance module). -/

/-- Base metric decay per tick (`BASE_DECAY_RATE = 0.1`). -/
def BASE_DECAY_RATE : ℚ := 1/10

/-- Base incident chance per tick (`INCIDENT.BASE_CHANCE = 0.003`). -/
def INCIDENT_BASE_CHANCE : ℚ := 3/1000

/-! Formula library (`formulas.ts`). -/

/-- Source function `calculateSLA`: weighted sum `T*0.4 + A*0.4 + C*0.2`, clamped to [0,100]. -/
def calculateSLA (metrics : Metrics) : ℚ :=
  let sla := metrics.T * (4/10) + metrics.A * (4/10) + metrics.C * (2/10)
  max 0 (min 100 sla)

/-- Source function `calculateDatasetDC`: `base_dc * (SLA/100) * globalMultipliers / 60`. -/
def calculateDatasetDC (dataset : Dataset) (globalMultipliers : ℚ) : ℚ :=
  let sla := calculateSLA dataset.current_metrics
  let efficiency := sla / 100
  dataset.base_dc * efficiency * globalMultipliers / 60

/-- Source function `calculateStaffMultiplier`: product of each staff member's
`dc_generation_bonus`, starting from 1.0. -/
def calculateStaffMultiplier (staff : List Staff) : ℚ :=
  staff.foldl (fun multiplier member => multiplier * member.effects.dc_generation_bonus) 1

/-- Source function `calculateTotalDC`: sum of `calculateDatasetDC` over all datasets with
the combined staff multiplier. -/
def calculateTotalDC (datasets : List Dataset) (staff : List Staff) : ℚ :=
  let staffMultiplier := calculateStaffMultiplier staff
  datasets.foldl (fun total dataset => total + calculateDatasetDC dataset staffMultiplier) 0

/-- Source function `applyMetricDecay`: subtract `decayRate` from each metric, floored at 0. -/
def applyMetricDecay (dataset : Dataset) (decayRate : ℚ) : Dataset :=
  { dataset with
    current_metrics :=
      { T := max 0 (dataset.current_metrics.T - decayRate)
        A := max 0 (dataset.current_metrics.A - decayRate)
        C := max 0 (dataset.current_metrics.C - decayRate) } }

/-- Source function `applyStaffBonuses`: add the summed per-metric staff bonuses to the
dataset's metrics, capped at 100. -/
def applyStaffBonuses (dataset : Dataset) (staff : List Staff) : Dataset :=
  let totalBonus := staff.foldl
    (fun acc member =>
      ({ T := acc.T + member.effects.global_T_bonus
         A := acc.A + member.effects.global_A_bonus
         C := acc.C + member.effects.global_C_bonus } : Metrics))
    ({ T := 0, A := 0, C := 0 } : Metrics)
  { dataset with
    current_metrics :=
      { T := min 100 (dataset.current_metrics.T + totalBonus.T)
        A := min 100 (dataset.current_metrics.A + totalBonus.A)
        C := min 100 (dataset.current_metrics.C + totalBonus.C) } }

/-- Source function `calculateDatasetStatus`: compare current SLA with the SLA of the
targets; `ok` at or above target, `warning` at or above 80% of target,
otherwise `failing`. -/
def calculateDatasetStatus (dataset : Dataset) : DatasetStatus :=
  let sla := calculateSLA dataset.current_metrics
  let target := calculateSLA dataset.sla_targets
  if sla ≥ target then .ok
  else if sla ≥ target * (8/10) then .warning
  else .failing

/-- Risk rating multipliers for incident chance. -/
def riskMultiplier : RiskRating → ℚ
  | .low => 1
  | .medium => 3/2
  | .high => 2

/-- Source function `calculateIncidentChance`: `baseChance * volumeFactor * slaFactor *
riskMultiplier`, clamped to [0.001, 0.1]. The source's default
`baseChance = 0.003` is supplied by `INCIDENT_BASE_CHANCE` at the single
call site. -/
def calculateIncidentChance (dataset : Dataset) (baseChance : ℚ) : ℚ :=
  let sla := calculateSLA dataset.current_metrics
  let volumeFactor := 1 + dataset.volume / 1000
  let slaFactor := (100 - sla) / 100
  let chance := baseChance * volumeFactor * slaFactor * riskMultiplier dataset.risk_rating
  max (1/1000) (min (1/10) chance)

/-! Tick engine (`engine.ts`). -/

/-- The engine's input snapshot (`processTick`'s `state` parameter). -/
structure TickState where
  datasets : List Dataset
  staff : List Staff
  activeIncidents : List Incident
  currentEvent : Option Event
  dc : ℚ
  lifetimeDC : ℚ
  prestigeLevel : ℕ
  deriving DecidableEq, Repr

/-- The result of one tick (`TickResult`; the wall-clock performance
fields are real-time measurements and are not modelled). -/
structure TickResult where
  dcGenerated : ℚ
  newIncidents : List Incident
  newEvent : Option Event
  updatedDatasets : List Dataset
  updatedIncidents : List Incident
  deriving DecidableEq, Repr

/-- Oracle for the engine's ambient non-determinism: `draw k` is the
result of the k-th `Math.random()` call, `idSuffix k` the random id
suffix generated at that call index, `nowMs` the value of `Date.now()`. -/
structure Rng where
  draw : ℕ → ℚ
  idSuffix : ℕ → String
  nowMs : ℤ

/-- Staff incident-resolution speed: product of each member's
`incident_resolution_speed`, starting from 1.0. -/
def resolutionSpeedMultiplier (staff : List Staff) : ℚ :=
  staff.foldl (fun multiplier member => multiplier * member.effects.incident_resolution_speed) 1

/-- One incident's per-tick progress update inside `processIncidents`:
progress increases by `(1 / base_resolution_time) * resolutionSpeedMult`. -/
def advanceIncident (incident : Incident) (resolutionSpeedMult : ℚ) : Incident :=
  let progressPerTick := (1 / incident.base_resolution_time) * resolutionSpeedMult
  { incident with resolution_progress := incident.resolution_progress + progressPerTick }

/-- The `updatedIncidents` computation of `processIncidents`: advance
every incident's progress, then drop those whose progress reached 1.0. -/
def survivors (incidents : List Incident) (staff : List Staff) : List Incident :=
  (incidents.map (fun incident => advanceIncident incident (resolutionSpeedMultiplier staff))).filter
    (fun incident => incident.resolution_progress < 1)

/-- The per-dataset body of `processIncidents`: apply to the dataset the
cumulative metric impacts of the incidents in `affectingSource` that
target it, each metric floored at 0; a dataset with no affecting
incident is returned as-is. -/
def applyIncidentImpactsTo (affectingSource : List Incident) (dataset : Dataset) : Dataset :=
  let affectingIncidents :=
    affectingSource.filter (fun incident => incident.dataset_id == dataset.id)
  if affectingIncidents.isEmpty then dataset
  else
    { dataset with
      current_metrics := affectingIncidents.foldl
        (fun m incident =>
          ({ T := max 0 (m.T + incident.metric_impact.T)
             A := max 0 (m.A + incident.metric_impact.A)
             C := max 0 (m.C + incident.metric_impact.C) } : Metrics))
        dataset.current_metrics }

/-- Source function `processIncidents`: advance every incident's progress, drop those at
progress ≥ 1.0, then apply the surviving incidents' metric impacts to
their datasets (cumulatively, floored at 0). Returns
(updatedDatasets, updatedIncidents). -/
def processIncidents (datasets : List Dataset) (incidents : List Incident)
    (staff : List Staff) : List Dataset × List Incident :=
  let updatedIncidents := survivors incidents staff
  let updatedDatasets := datasets.map (applyIncidentImpactsTo updatedIncidents)
  (updatedDatasets, updatedIncidents)

/-- Incident archetype template used by `createIncident`. -/
structure IncidentTemplate where
  type : IncidentType
  title : String
  description : String
  impact : Metrics
  resolutionTime : ℚ
  haltsDC : Bool
  deriving DecidableEq, Repr

/-- The fixed incident catalog inside `createIncident` (impacts and
resolution times from the `INCIDENT` balance constants). -/
def incidentTypes (dataset : Dataset) : List IncidentTemplate :=
  [ { type := .dataDelay
      title := "Data Delay"
      description := dataset.name ++ " is experiencing upstream delays"
      impact := { T := -5, A := -5, C := -5 }
      resolutionTime := 30
      haltsDC := false }
  , { type := .corruptedBatch
      title := "Corrupted Batch"
      description := "Data quality issue detected in " ++ dataset.name
      impact := { T := -15, A := -15, C := -10 }
      resolutionTime := 60
      haltsDC := false }
  , { type := .pipelineFailure
      title := "Pipeline Failure"
      description := "Critical pipeline failure in " ++ dataset.name
      impact := { T := -30, A := -30, C := -20 }
      resolutionTime := 120
      haltsDC := true } ]

/-- Source function `createIncident`: pick a template by `Math.floor(random * 3)` and
stamp a fresh id and the current time. `typeDraw` lies in [0,1), so the
index is always in range; the fallback default is never reached. -/
def createIncident (dataset : Dataset) (typeDraw : ℚ) (suffix : String)
    (nowMs : ℤ) : Incident :=
  let templates := incidentTypes dataset
  let template := templates.getD (Int.floor (typeDraw * 3)).toNat
    { type := .dataDelay, title := "", description := "",
      impact := { T := 0, A := 0, C := 0 }, resolutionTime := 1, haltsDC := false }
  { id := "incident-" ++ toString nowMs ++ "-" ++ suffix
    type := template.type
    title := template.title
    description := template.description
    dataset_id := dataset.id
    metric_impact := template.impact
    base_resolution_time := template.resolutionTime
    resolution_progress := 0
    started_at := nowMs
    halts_dc_generation := template.haltsDC }

/-- Step 6 of the tick: for each dataset in order, draw one uniform
number; on success (`draw < incidentChance`) synthesize an incident,
which consumes two further draws (template choice and id suffix), as the
source's `Math.random()` calls do. `k` is the index of the next draw. -/
def rollIncidents (rng : Rng) : List Dataset → ℕ → List Incident
  | [], _ => []
  | dataset :: rest, k =>
    let incidentChance := calculateIncidentChance dataset INCIDENT_BASE_CHANCE
    if rng.draw k < incidentChance then
      createIncident dataset (rng.draw (k + 1)) (rng.idSuffix (k + 2)) rng.nowMs ::
        rollIncidents rng rest (k + 3)
    else
      rollIncidents rng rest (k + 1)

/-- Effective decay rate for one dataset inside step 1 of `processTick`:
`max(0.01, BASE_DECAY_RATE - 0.01 * installed pipeline count)`. -/
def effectiveDecayRate (dataset : Dataset) : ℚ :=
  let decayReduction := (dataset.pipelines_installed.length : ℚ) * (1/100)
  max (1/100) (BASE_DECAY_RATE - decayReduction)

/-- Step 1 of the tick for one dataset: apply decay at the effective
rate, then staff metric bonuses (only when staff are hired). -/
def decayAndBonusStep (staff : List Staff) (dataset : Dataset) : Dataset :=
  let decayed := applyMetricDecay dataset (effectiveDecayRate dataset)
  if staff.length > 0 then applyStaffBonuses decayed staff else decayed

/-- Step 4 of the tick for one dataset: refresh the stored SLA and
status from the current metrics. -/
def refreshSLAAndStatus (dataset : Dataset) : Dataset :=
  { dataset with
    currentSLA := calculateSLA dataset.current_metrics
    status := calculateDatasetStatus dataset }

/-- Source function `processTick`: the one-second simulation step. A non-null blocking
event short-circuits to a no-op result; otherwise run
decay+bonus → incident resolution → SLA/status refresh → DC total →
incident spawn rolls → (event roll, always null). -/
def processTick (state : TickState) (rng : Rng) : TickResult :=
  if state.currentEvent.isSome then
    { dcGenerated := 0
      newIncidents := []
      newEvent := none
      updatedDatasets := state.datasets
      updatedIncidents := state.activeIncidents }
  else
    let datasets1 := state.datasets.map (decayAndBonusStep state.staff)
    let afterIncidents := processIncidents datasets1 state.activeIncidents state.staff
    let datasets2 := afterIncidents.1.map refreshSLAAndStatus
    let dcGenerated := calculateTotalDC datasets2 state.staff
    let newIncidents := rollIncidents rng datasets2 0
    { dcGenerated := dcGenerated
      newIncidents := newIncidents
      newEvent := none
      updatedDatasets := datasets2
      updatedIncidents := afterIncidents.2 }

/-! Offline catch-up simulator (`calculateOfflineProgress`). -/

/-- Result of `calculateOfflineProgress`. -/
structure OfflineResult where
  dcEarned : ℤ
  ticksSimulated : ℚ
  finalDatasets : List Dataset
  deriving DecidableEq, Repr

/-- Offline efficiency penalty (`OFFLINE_EFFICIENCY = 0.5`). -/
def OFFLINE_EFFICIENCY : ℚ := 1/2

/-- Offline hard cap (`MAX_OFFLINE_SECONDS = 86400`). -/
def MAX_OFFLINE_SECONDS : ℚ := 86400

/-- The batch loop of `calculateOfflineProgress`, one recursive call per
loop iteration. Arguments after the fuel (remaining batch count):
accumulated DC, ticks processed so far, current datasets. Each batch
runs one tick on the current datasets with incidents cleared and no
event, scales its DC by `ticksInBatch * OFFLINE_EFFICIENCY`, and carries
the updated datasets forward. -/
def offlineBatchLoop (state : TickState) (rng : Rng) (ticksToSimulate : ℚ) :
    ℕ → ℚ → ℚ → List Dataset → ℚ × ℚ × List Dataset
  | 0, totalDCEarned, ticksProcessed, currentDatasets =>
    (totalDCEarned, ticksProcessed, currentDatasets)
  | batchesLeft + 1, totalDCEarned, ticksProcessed, currentDatasets =>
    let ticksInBatch := min 60 (ticksToSimulate - ticksProcessed)
    let result := processTick
      { state with
        datasets := currentDatasets
        activeIncidents := []
        currentEvent := none } rng
    let batchDC := result.dcGenerated * ticksInBatch * OFFLINE_EFFICIENCY
    offlineBatchLoop state rng ticksToSimulate batchesLeft
      (totalDCEarned + batchDC) (ticksProcessed + ticksInBatch) result.updatedDatasets

/-- Source function `calculateOfflineProgress`: cap elapsed time at 24 hours, run
`ceil(ticks / 60)` batches of the loop, floor the earned total. -/
def calculateOfflineProgress (state : TickState) (secondsElapsed : ℚ)
    (rng : Rng) : OfflineResult :=
  let ticksToSimulate := min secondsElapsed MAX_OFFLINE_SECONDS
  let batches := (Int.ceil (ticksToSimulate / 60)).toNat
  let r := offlineBatchLoop state rng ticksToSimulate batches 0 0 state.datasets
  { dcEarned := Int.floor r.1
    ticksSimulated := r.2.1
    finalDatasets := r.2.2 }

/-- Forget an incident's DC-halt flag. Two incident lists with the same
image under this map differ at most in their `halts_dc_generation`
flags, which is the hypothesis of the flag-insensitivity claim. -/
def eraseHaltsFlag (incident : Incident) : Incident :=
  { incident with halts_dc_generation := false }

/-! Concrete fixtures (mirroring the repository's engine test fixtures). -/

/-- A fixed random oracle whose draws are all 1/2 (no incident ever
spawns, since the incident chance is capped at 1/10). -/
def constRng : Rng :=
  { draw := fun _ => 1/2
    idSuffix := fun _ => "r"
    nowMs := 0 }

/-- The engine tests' mock dataset: 60 DC per minute, perfect metrics,
95/95/95 targets, low risk, no pipelines. -/
def testDataset : Dataset :=
  { id := "test-dataset"
    name := "Test Dataset"
    description := "Test"
    base_dc := 60
    volume := 100
    risk_rating := .low
    sla_targets := { T := 95, A := 95, C := 95 }
    current_metrics := { T := 100, A := 100, C := 100 }
    pipelines_installed := []
    currentSLA := 100
    status := .ok }

/-- Snapshot with the single mock dataset, no staff, no incidents, no
blocking event. -/
def baseState : TickState :=
  { datasets := [testDataset]
    staff := []
    activeIncidents := []
    currentEvent := none
    dc := 0
    lifetimeDC := 0
    prestigeLevel := 0 }

/-- Snapshot with a blocking event present. -/
def blockedState : TickState :=
  { baseState with
    currentEvent := some { id := "event-1", title := "Test Event", message := "Test" } }

/-- An incident one tick away from resolution (progress 0.97, base
resolution time 30 ticks), with a strictly negative metric impact. -/
def nearlyResolvedIncident : Incident :=
  { id := "incident-1"
    type := .dataDelay
    title := "Data Delay"
    description := "Test incident"
    dataset_id := "test-dataset"
    metric_impact := { T := -5, A := -5, C := -5 }
    base_resolution_time := 30
    resolution_progress := 97/100
    started_at := 0
    halts_dc_generation := false }

/-- Snapshot whose single dataset sits at metrics 50/50/50 and carries
the nearly resolved incident. -/
def c1State : TickState :=
  { baseState with
    datasets := [{ testDataset with current_metrics := { T := 50, A := 50, C := 50 } }]
    activeIncidents := [nearlyResolvedIncident] }

/-- A fresh incident that survives its first tick (progress goes from 0
to 1/2 with a base resolution time of 2 ticks). -/
def survivingIncident : Incident :=
  { nearlyResolvedIncident with
    id := "incident-2"
    base_resolution_time := 2
    resolution_progress := 0 }

/-- Snapshot carrying the surviving incident. -/
def survivingState : TickState :=
  { baseState with activeIncidents := [survivingIncident] }

/-- The nearly resolved incident with its DC-halt flag raised. -/
def haltingIncident : Incident :=
  { nearlyResolvedIncident with halts_dc_generation := true }

/-! Claim theorems. -/

/-- C3: a snapshot with a non-null blocking event yields dcGenerated 0,
no new incidents, no new event, and datasets and incidents returned
unchanged — the output equals the input. -/
theorem c3_blocked_tick_is_noop (state : TickState) (rng : Rng)
    (h : state.currentEvent ≠ none) :
    processTick state rng =
      { dcGenerated := 0
        newIncidents := []
        newEvent := none
        updatedDatasets := state.datasets
        updatedIncidents := state.activeIncidents } := by
  have hs : state.currentEvent.isSome = true := Option.isSome_iff_ne_none.mpr h
  simp [processTick, hs]

/-- Witness for C3 at a concrete blocked snapshot. -/
theorem c3_blocked_tick_is_noop_witness :
    processTick blockedState constRng =
      { dcGenerated := 0
        newIncidents := []
        newEvent := none
        updatedDatasets := blockedState.datasets
        updatedIncidents := blockedState.activeIncidents } :=
  c3_blocked_tick_is_noop blockedState constRng (by simp [blockedState])

/-- C8: the effective decay rate in an active tick is
`max(0.01, 0.1 - 0.01 * installed pipeline count)`, and `applyMetricDecay`
subtracts the given rate from each of T, A, C with a floor of 0, so no
metric ever goes below 0, for any starting value or rate. -/
theorem c8_decay_rate_formula_and_floor (dataset : Dataset) (rate : ℚ) :
    effectiveDecayRate dataset
        = max (1/100) (1/10 - (1/100) * (dataset.pipelines_installed.length : ℚ))
    ∧ (applyMetricDecay dataset rate).current_metrics.T
        = max 0 (dataset.current_metrics.T - rate)
    ∧ (applyMetricDecay dataset rate).current_metrics.A
        = max 0 (dataset.current_metrics.A - rate)
    ∧ (applyMetricDecay dataset rate).current_metrics.C
        = max 0 (dataset.current_metrics.C - rate)
    ∧ 0 ≤ (applyMetricDecay dataset rate).current_metrics.T
    ∧ 0 ≤ (applyMetricDecay dataset rate).current_metrics.A
    ∧ 0 ≤ (applyMetricDecay dataset rate).current_metrics.C := by
  refine ⟨?_, rfl, rfl, rfl, le_max_left 0 _, le_max_left 0 _, le_max_left 0 _⟩
  rw [effectiveDecayRate, BASE_DECAY_RATE, mul_comm]

/-- C6: one active tick on a single 60-DC-per-minute dataset at metrics
100/100/100 with targets 95/95/95, no staff and no incidents, generates
0.999 DC (within 0.1 of 1.0), leaves the metrics at 99.9/99.9/99.9, and
classifies the dataset as ok. -/
theorem c6_single_tick_scenario :
    (processTick baseState constRng).dcGenerated = 999/1000
    ∧ 1 - 1/10 < (processTick baseState constRng).dcGenerated
    ∧ (processTick baseState constRng).dcGenerated < 1 + 1/10
    ∧ (processTick baseState constRng).updatedDatasets.map Dataset.current_metrics
        = [{ T := 999/10, A := 999/10, C := 999/10 }]
    ∧ (processTick baseState constRng).updatedDatasets.map Dataset.status
        = [DatasetStatus.ok] := by
  norm_num [processTick, baseState, testDataset, constRng, decayAndBonusStep,
    effectiveDecayRate, BASE_DECAY_RATE, applyMetricDecay, processIncidents, survivors, applyIncidentImpactsTo,
    resolutionSpeedMultiplier, refreshSLAAndStatus, calculateSLA,
    calculateDatasetStatus, calculateTotalDC, calculateStaffMultiplier,
    calculateDatasetDC]

/-- C1 counterexample: on a snapshot whose incident crosses progress 1.0
this tick (0.97 + 1/30), the incident is removed, but the dataset's T
metric is 49.9 — pure decay from 50 — not 44.9, so the incident's impact
of -5 was NOT applied on the final tick, contradicting the claim. -/
theorem c1_final_tick_counterexample :
    (processTick c1State constRng).updatedIncidents = []
    ∧ (processTick c1State constRng).updatedDatasets.map
        (fun d => d.current_metrics.T) = [499/10]
    ∧ (processTick c1State constRng).updatedDatasets.map
        (fun d => d.current_metrics.T) ≠ [499/10 + nearlyResolvedIncident.metric_impact.T] := by
  norm_num [processTick, c1State, baseState, testDataset, constRng,
    nearlyResolvedIncident, decayAndBonusStep, effectiveDecayRate, BASE_DECAY_RATE,
    applyMetricDecay, processIncidents, survivors, applyIncidentImpactsTo,
    resolutionSpeedMultiplier, advanceIncident, refreshSLAAndStatus, calculateSLA, calculateDatasetStatus, calculateTotalDC,
    calculateStaffMultiplier, calculateDatasetDC]

/-- C5: offline progress for the mock snapshot and 60 seconds elapsed:
exactly 60 ticks are simulated and the earned DC is 29 — one tick's
0.999 DC scaled by the 60-tick batch and the 0.5 offline-efficiency
penalty, floored — which lies strictly between 25 and 35. -/
theorem c5_offline_sixty_seconds :
    (calculateOfflineProgress baseState 60 constRng).ticksSimulated = 60
    ∧ (calculateOfflineProgress baseState 60 constRng).dcEarned = 29
    ∧ 25 < (calculateOfflineProgress baseState 60 constRng).dcEarned
    ∧ (calculateOfflineProgress baseState 60 constRng).dcEarned < 35 := by
  norm_num [calculateOfflineProgress, MAX_OFFLINE_SECONDS, OFFLINE_EFFICIENCY,
    offlineBatchLoop, processTick, baseState, testDataset, constRng,
    decayAndBonusStep, effectiveDecayRate, BASE_DECAY_RATE, applyMetricDecay,
    processIncidents, survivors, applyIncidentImpactsTo, resolutionSpeedMultiplier,
    refreshSLAAndStatus, calculateSLA,
    calculateDatasetStatus, calculateTotalDC, calculateStaffMultiplier,
    calculateDatasetDC]

/-! Helper lemmas. -/

/-- Unfolding of `processTick` on an active (event-free) snapshot. -/
lemma processTick_active (state : TickState) (rng : Rng)
    (hev : state.currentEvent = none) :
    processTick state rng =
      { dcGenerated :=
          calculateTotalDC
            (((state.datasets.map (decayAndBonusStep state.staff)).map
                (applyIncidentImpactsTo (survivors state.activeIncidents state.staff))).map
              refreshSLAAndStatus) state.staff
        newIncidents :=
          rollIncidents rng
            (((state.datasets.map (decayAndBonusStep state.staff)).map
                (applyIncidentImpactsTo (survivors state.activeIncidents state.staff))).map
              refreshSLAAndStatus) 0
        newEvent := none
        updatedDatasets :=
          ((state.datasets.map (decayAndBonusStep state.staff)).map
              (applyIncidentImpactsTo (survivors state.activeIncidents state.staff))).map
            refreshSLAAndStatus
        updatedIncidents := survivors state.activeIncidents state.staff } := by
  simp [processTick, hev, processIncidents]

/-- Every `ticksInBatch` step of the offline loop advances the processed
tick count to `min (p + 60k) t`: after `n` more batches starting from
`p ≤ t` ticks processed, the count ends at `min (p + 60n) t`. -/
lemma offlineBatchLoop_ticks (state : TickState) (rng : Rng) (t : ℚ) :
    ∀ (n : ℕ) (dc p : ℚ) (ds : List Dataset), p ≤ t →
      (offlineBatchLoop state rng t n dc p ds).2.1 = min (p + 60 * n) t := by
  intro n
  induction n with
  | zero =>
    intro dc p ds hp
    simp only [offlineBatchLoop, Nat.cast_zero, mul_zero, add_zero]
    exact (min_eq_left hp).symm
  | succ n ih =>
    intro dc p ds hp
    have hp' : p + min 60 (t - p) ≤ t := by
      have := min_le_right (60 : ℚ) (t - p)
      linarith
    simp only [offlineBatchLoop]
    rw [ih _ _ _ hp']
    rcases le_total (60 : ℚ) (t - p) with h | h
    · rw [min_eq_left h]
      congr 1
      push_cast
      ring
    · rw [min_eq_right h]
      have h60n : (0:ℚ) ≤ 60 * n := by positivity
      have hn1 : t ≤ p + 60 * ((n : ℚ) + 1) := by linarith
      rw [min_eq_right (by linarith : t ≤ p + (t - p) + 60 * (n : ℚ))]
      rw [eq_comm, min_eq_right (by push_cast; linarith : t ≤ p + 60 * ((n + 1 : ℕ) : ℚ))]

/-! More claim theorems. -/

/-- C4: for every snapshot and `secondsElapsed ≥ 0`, the offline
simulator reports `ticksSimulated = min(secondsElapsed, 86400)` — the
capped elapsed time, not the batch count — and in particular
`secondsElapsed = 100000` yields exactly 86400 ticks. -/
theorem c4_offline_tick_cap (state : TickState) (rng : Rng)
    (secondsElapsed : ℚ) (h : 0 ≤ secondsElapsed) :
    (calculateOfflineProgress state secondsElapsed rng).ticksSimulated
        = min secondsElapsed 86400
    ∧ (calculateOfflineProgress state 100000 rng).ticksSimulated = 86400 := by
  have key : ∀ (s : ℚ), 0 ≤ s →
      (calculateOfflineProgress state s rng).ticksSimulated = min s 86400 := by
    intro s hs
    have ht0 : (0:ℚ) ≤ min s 86400 := le_min hs (by norm_num)
    show (offlineBatchLoop state rng (min s 86400)
        (Int.ceil (min s 86400 / 60)).toNat 0 0 state.datasets).2.1 = min s 86400
    rw [offlineBatchLoop_ticks state rng _ _ 0 0 state.datasets ht0]
    have hceil : (0:ℤ) ≤ Int.ceil (min s 86400 / 60) :=
      Int.ceil_nonneg (by positivity)
    have hcast : (((Int.ceil (min s 86400 / 60)).toNat : ℕ) : ℚ)
        = ((Int.ceil (min s 86400 / 60) : ℤ) : ℚ) := by
      exact_mod_cast Int.toNat_of_nonneg hceil
    have hle : min s 86400 ≤ 60 * ((Int.ceil (min s 86400 / 60) : ℤ) : ℚ) := by
      have h1 : min s 86400 / 60 ≤ ((Int.ceil (min s 86400 / 60) : ℤ) : ℚ) :=
        Int.le_ceil _
      linarith
    rw [zero_add, hcast, min_eq_right hle]
  refine ⟨key secondsElapsed h, ?_⟩
  rw [key 100000 (by norm_num)]
  norm_num

/-- Witness for C4 at a concrete snapshot with 100000 seconds elapsed. -/
theorem c4_offline_tick_cap_witness :
    (calculateOfflineProgress baseState 100000 constRng).ticksSimulated
        = min 100000 86400
    ∧ (calculateOfflineProgress baseState 100000 constRng).ticksSimulated = 86400 :=
  c4_offline_tick_cap baseState constRng 100000 (by decide)

/-- C9: with positive base resolution time and a positive staff
resolution-speed product, each tick advances an incident's progress by
exactly `(1 / base_resolution_time) * resolutionSpeedMultiplier`, so
progress strictly increases; and a no-staff incident at progress 0.97
with base resolution time 30 is removed by the very next tick. -/
theorem c9_progress_strictly_increases (staff : List Staff) (incident : Incident)
    (ds : List Dataset) (h1 : 0 < incident.base_resolution_time)
    (h2 : 0 < resolutionSpeedMultiplier staff) :
    (advanceIncident incident (resolutionSpeedMultiplier staff)).resolution_progress
        = incident.resolution_progress
          + 1 / incident.base_resolution_time * resolutionSpeedMultiplier staff
    ∧ incident.resolution_progress
        < (advanceIncident incident (resolutionSpeedMultiplier staff)).resolution_progress
    ∧ (incident.resolution_progress = 97/100 → incident.base_resolution_time = 30 →
        staff = [] → (processIncidents ds [incident] staff).2 = []) := by
  refine ⟨rfl, ?_, ?_⟩
  · have hpos : 0 < 1 / incident.base_resolution_time * resolutionSpeedMultiplier staff :=
      mul_pos (by positivity) h2
    show incident.resolution_progress
        < incident.resolution_progress
          + 1 / incident.base_resolution_time * resolutionSpeedMultiplier staff
    linarith
  · intro hprog hbrt hstaff
    subst hstaff
    simp only [processIncidents, survivors, resolutionSpeedMultiplier, List.foldl_nil,
      advanceIncident, List.map_cons, List.map_nil, hprog, hbrt]
    norm_num

/-- Witness for C9 on the concrete nearly resolved incident. -/
theorem c9_progress_strictly_increases_witness :
    ((advanceIncident nearlyResolvedIncident (resolutionSpeedMultiplier [])).resolution_progress
        = nearlyResolvedIncident.resolution_progress
          + 1 / nearlyResolvedIncident.base_resolution_time * resolutionSpeedMultiplier []
    ∧ nearlyResolvedIncident.resolution_progress
        < (advanceIncident nearlyResolvedIncident (resolutionSpeedMultiplier [])).resolution_progress
    ∧ (processIncidents [] [nearlyResolvedIncident] []).2 = []) := by
  have h := c9_progress_strictly_increases [] nearlyResolvedIncident []
    (by decide) (by decide)
  exact ⟨h.1, h.2.1, h.2.2 rfl rfl rfl⟩

/-- C10: on an active tick, every incident in the result's
`updatedIncidents` is one of the input incidents with every field other
than `resolution_progress` unchanged (and progress advanced by exactly
one tick's worth); no incident absent from the input appears. -/
theorem c10_updated_incidents_frame (state : TickState) (rng : Rng)
    (hev : state.currentEvent = none) :
    ∀ j ∈ (processTick state rng).updatedIncidents,
      ∃ i ∈ state.activeIncidents,
        j.id = i.id ∧ j.type = i.type ∧ j.title = i.title
        ∧ j.description = i.description ∧ j.dataset_id = i.dataset_id
        ∧ j.metric_impact = i.metric_impact
        ∧ j.base_resolution_time = i.base_resolution_time
        ∧ j.started_at = i.started_at
        ∧ j.halts_dc_generation = i.halts_dc_generation
        ∧ j.resolution_progress = i.resolution_progress
            + 1 / i.base_resolution_time * resolutionSpeedMultiplier state.staff := by
  intro j hj
  rw [processTick_active state rng hev] at hj
  simp only [survivors, List.mem_filter, List.mem_map] at hj
  obtain ⟨⟨i, hi, rfl⟩, _⟩ := hj
  exact ⟨i, hi, rfl, rfl, rfl, rfl, rfl, rfl, rfl, rfl, rfl, rfl⟩

/-- Witness for C10 at a concrete snapshot with one surviving incident. -/
theorem c10_updated_incidents_frame_witness :
    survivingState.currentEvent = none
    ∧ ∀ j ∈ (processTick survivingState constRng).updatedIncidents,
      ∃ i ∈ survivingState.activeIncidents,
        j.id = i.id ∧ j.type = i.type ∧ j.title = i.title
        ∧ j.description = i.description ∧ j.dataset_id = i.dataset_id
        ∧ j.metric_impact = i.metric_impact
        ∧ j.base_resolution_time = i.base_resolution_time
        ∧ j.started_at = i.started_at
        ∧ j.halts_dc_generation = i.halts_dc_generation
        ∧ j.resolution_progress = i.resolution_progress
            + 1 / i.base_resolution_time * resolutionSpeedMultiplier survivingState.staff :=
  ⟨rfl, c10_updated_incidents_frame survivingState constRng rfl⟩

/-- Advancing progress commutes with forgetting the DC-halt flag. -/
lemma advanceIncident_eraseHaltsFlag (i : Incident) (m : ℚ) :
    advanceIncident (eraseHaltsFlag i) m = eraseHaltsFlag (advanceIncident i m) := rfl

/-- The surviving-incidents computation only reads fields preserved by
`eraseHaltsFlag`, so it commutes with mapping that flag away. -/
lemma survivors_map_eraseHaltsFlag (l : List Incident) (staff : List Staff) :
    (survivors l staff).map eraseHaltsFlag = survivors (l.map eraseHaltsFlag) staff := by
  unfold survivors
  rw [List.map_map]
  rw [List.filter_map, List.filter_map]
  rw [List.map_map]
  rfl

/-- The per-dataset incident-impact application only reads fields
preserved by `eraseHaltsFlag`, so it is unchanged by mapping that flag
away from its incident list. -/
lemma applyIncidentImpactsTo_eraseHaltsFlag (incs : List Incident) (d : Dataset) :
    applyIncidentImpactsTo (incs.map eraseHaltsFlag) d = applyIncidentImpactsTo incs d := by
  unfold applyIncidentImpactsTo
  rw [List.filter_map]
  have hempty : ∀ X : List Incident, (X.map eraseHaltsFlag).isEmpty = X.isEmpty := by
    intro X; cases X <;> rfl
  show (if ((incs.filter fun i => (eraseHaltsFlag i).dataset_id == d.id).map
      eraseHaltsFlag).isEmpty then d else _) = _
  rw [hempty, List.foldl_map]
  rfl

/-- C2: two active snapshots whose incident lists agree after forgetting
the `halts_dc_generation` flag — i.e. differ only in that flag — produce
the same `dcGenerated`, for any random oracles: the tick pipeline never
consults the flag before computing the DC total. -/
theorem c2_halts_flag_never_consulted (state : TickState) (l1 l2 : List Incident)
    (rng1 rng2 : Rng) (hev : state.currentEvent = none)
    (hsame : l1.map eraseHaltsFlag = l2.map eraseHaltsFlag) :
    (processTick { state with activeIncidents := l1 } rng1).dcGenerated
      = (processTick { state with activeIncidents := l2 } rng2).dcGenerated := by
  have h1 : ({ state with activeIncidents := l1 } : TickState).currentEvent = none := hev
  have h2 : ({ state with activeIncidents := l2 } : TickState).currentEvent = none := hev
  rw [processTick_active _ rng1 h1, processTick_active _ rng2 h2]
  dsimp only
  have hsurv : (survivors l1 state.staff).map eraseHaltsFlag
      = (survivors l2 state.staff).map eraseHaltsFlag := by
    rw [survivors_map_eraseHaltsFlag, survivors_map_eraseHaltsFlag, hsame]
  have himpact : applyIncidentImpactsTo (survivors l1 state.staff)
      = applyIncidentImpactsTo (survivors l2 state.staff) := by
    funext d
    rw [← applyIncidentImpactsTo_eraseHaltsFlag (survivors l1 state.staff) d,
        ← applyIncidentImpactsTo_eraseHaltsFlag (survivors l2 state.staff) d, hsurv]
  rw [himpact]

/-- Witness for C2: the nearly resolved incident with and without the
DC-halt flag yields the same DC total. -/
theorem c2_halts_flag_never_consulted_witness :
    (processTick { baseState with activeIncidents := [haltingIncident] } constRng).dcGenerated
      = (processTick { baseState with activeIncidents := [nearlyResolvedIncident] }
          constRng).dcGenerated :=
  c2_halts_flag_never_consulted baseState [haltingIncident] [nearlyResolvedIncident]
    constRng constRng rfl rfl

/-- Pre-filtering the incident list to those that will still be below
progress 1.0 after advancement does not change the surviving set. -/
lemma survivors_filter_unresolved (l : List Incident) (staff : List Staff) :
    survivors (l.filter (fun i =>
        (advanceIncident i (resolutionSpeedMultiplier staff)).resolution_progress < 1)) staff
      = survivors l staff := by
  unfold survivors
  rw [List.filter_map, List.filter_map, List.filter_filter]
  congr 1
  congr 1
  funext i
  exact Bool.and_self _

/-- C1 (amended): on an active tick, an incident whose advanced progress
reaches 1.0 is removed from `updatedIncidents` that same tick, but its
metric impact is NOT applied on that final tick: the updated datasets
are identical to those of a snapshot from which the about-to-resolve
incidents were already deleted, so only still-unresolved incidents
affect the metrics. -/
theorem c1_resolved_incident_removed_without_final_impact (state : TickState)
    (rng : Rng) (hev : state.currentEvent = none) :
    (∀ j ∈ (processTick state rng).updatedIncidents, j.resolution_progress < 1)
    ∧ (processTick state rng).updatedDatasets
        = (processTick { state with
              activeIncidents := state.activeIncidents.filter (fun i =>
                (advanceIncident i
                  (resolutionSpeedMultiplier state.staff)).resolution_progress < 1) }
            rng).updatedDatasets := by
  constructor
  · intro j hj
    rw [processTick_active state rng hev] at hj
    dsimp only at hj
    simp only [survivors, List.mem_filter, decide_eq_true_eq] at hj
    exact hj.2
  · have h2 : ({ state with
        activeIncidents := state.activeIncidents.filter (fun i =>
          (advanceIncident i
            (resolutionSpeedMultiplier state.staff)).resolution_progress < 1) } :
        TickState).currentEvent = none := hev
    rw [processTick_active state rng hev, processTick_active _ rng h2]
    dsimp only
    rw [survivors_filter_unresolved]

/-- Witness for the amended C1 at the concrete snapshot whose incident
crosses progress 1.0 this tick. -/
theorem c1_resolved_incident_removed_without_final_impact_witness :
    (∀ j ∈ (processTick c1State constRng).updatedIncidents, j.resolution_progress < 1)
    ∧ (processTick c1State constRng).updatedDatasets
        = (processTick { c1State with
              activeIncidents := c1State.activeIncidents.filter (fun i =>
                (advanceIncident i
                  (resolutionSpeedMultiplier c1State.staff)).resolution_progress < 1) }
            constRng).updatedDatasets :=
  c1_resolved_incident_removed_without_final_impact c1State constRng rfl

/-- Decay keeps metrics in [0,100] when the rate is nonnegative and the
incoming metrics are at most 100. -/
lemma applyMetricDecay_range (d : Dataset) (rate : ℚ) (hr : 0 ≤ rate)
    (h : 0 ≤ d.current_metrics.T ∧ d.current_metrics.T ≤ 100
      ∧ 0 ≤ d.current_metrics.A ∧ d.current_metrics.A ≤ 100
      ∧ 0 ≤ d.current_metrics.C ∧ d.current_metrics.C ≤ 100) :
    0 ≤ (applyMetricDecay d rate).current_metrics.T
    ∧ (applyMetricDecay d rate).current_metrics.T ≤ 100
    ∧ 0 ≤ (applyMetricDecay d rate).current_metrics.A
    ∧ (applyMetricDecay d rate).current_metrics.A ≤ 100
    ∧ 0 ≤ (applyMetricDecay d rate).current_metrics.C
    ∧ (applyMetricDecay d rate).current_metrics.C ≤ 100 := by
  obtain ⟨-, hT, -, hA, -, hC⟩ := h
  exact ⟨le_max_left 0 _, max_le (by norm_num) (by linarith),
    le_max_left 0 _, max_le (by norm_num) (by linarith),
    le_max_left 0 _, max_le (by norm_num) (by linarith)⟩

/-- The summed staff metric bonus is componentwise nonnegative when each
staff member's bonuses are, for any nonnegative accumulator. -/
lemma staffBonusFold_nonneg :
    ∀ (staff : List Staff),
      (∀ m ∈ staff, 0 ≤ m.effects.global_T_bonus
        ∧ 0 ≤ m.effects.global_A_bonus ∧ 0 ≤ m.effects.global_C_bonus) →
      ∀ acc : Metrics, 0 ≤ acc.T → 0 ≤ acc.A → 0 ≤ acc.C →
        0 ≤ (staff.foldl
            (fun acc member =>
              ({ T := acc.T + member.effects.global_T_bonus
                 A := acc.A + member.effects.global_A_bonus
                 C := acc.C + member.effects.global_C_bonus } : Metrics)) acc).T
        ∧ 0 ≤ (staff.foldl
            (fun acc member =>
              ({ T := acc.T + member.effects.global_T_bonus
                 A := acc.A + member.effects.global_A_bonus
                 C := acc.C + member.effects.global_C_bonus } : Metrics)) acc).A
        ∧ 0 ≤ (staff.foldl
            (fun acc member =>
              ({ T := acc.T + member.effects.global_T_bonus
                 A := acc.A + member.effects.global_A_bonus
                 C := acc.C + member.effects.global_C_bonus } : Metrics)) acc).C := by
  intro staff
  induction staff with
  | nil => intro _ acc h1 h2 h3; exact ⟨h1, h2, h3⟩
  | cons m t ih =>
    intro hstaff acc h1 h2 h3
    have hm := hstaff m (List.mem_cons_self m t)
    simp only [List.foldl_cons]
    exact ih (fun x hx => hstaff x (List.mem_cons_of_mem m hx)) _
      (by dsimp; linarith [hm.1]) (by dsimp; linarith [hm.2.1])
      (by dsimp; linarith [hm.2.2])

/-- Staff bonuses keep metrics in [0,100] when each bonus is nonnegative
and the incoming metrics are in range. -/
lemma applyStaffBonuses_range (d : Dataset) (staff : List Staff)
    (hstaff : ∀ m ∈ staff, 0 ≤ m.effects.global_T_bonus
      ∧ 0 ≤ m.effects.global_A_bonus ∧ 0 ≤ m.effects.global_C_bonus)
    (h : 0 ≤ d.current_metrics.T ∧ d.current_metrics.T ≤ 100
      ∧ 0 ≤ d.current_metrics.A ∧ d.current_metrics.A ≤ 100
      ∧ 0 ≤ d.current_metrics.C ∧ d.current_metrics.C ≤ 100) :
    0 ≤ (applyStaffBonuses d staff).current_metrics.T
    ∧ (applyStaffBonuses d staff).current_metrics.T ≤ 100
    ∧ 0 ≤ (applyStaffBonuses d staff).current_metrics.A
    ∧ (applyStaffBonuses d staff).current_metrics.A ≤ 100
    ∧ 0 ≤ (applyStaffBonuses d staff).current_metrics.C
    ∧ (applyStaffBonuses d staff).current_metrics.C ≤ 100 := by
  obtain ⟨hT0, -, hA0, -, hC0, -⟩ := h
  have hb := staffBonusFold_nonneg staff hstaff
    ({ T := 0, A := 0, C := 0 } : Metrics) le_rfl le_rfl le_rfl
  exact ⟨le_min (by norm_num) (by linarith [hb.1]), min_le_left _ _,
    le_min (by norm_num) (by linarith [hb.2.1]), min_le_left _ _,
    le_min (by norm_num) (by linarith [hb.2.2]), min_le_left _ _⟩

/-- Step 1 of an active tick keeps metrics in [0,100]. -/
lemma decayAndBonusStep_range (staff : List Staff) (d : Dataset)
    (hstaff : ∀ m ∈ staff, 0 ≤ m.effects.global_T_bonus
      ∧ 0 ≤ m.effects.global_A_bonus ∧ 0 ≤ m.effects.global_C_bonus)
    (h : 0 ≤ d.current_metrics.T ∧ d.current_metrics.T ≤ 100
      ∧ 0 ≤ d.current_metrics.A ∧ d.current_metrics.A ≤ 100
      ∧ 0 ≤ d.current_metrics.C ∧ d.current_metrics.C ≤ 100) :
    0 ≤ (decayAndBonusStep staff d).current_metrics.T
    ∧ (decayAndBonusStep staff d).current_metrics.T ≤ 100
    ∧ 0 ≤ (decayAndBonusStep staff d).current_metrics.A
    ∧ (decayAndBonusStep staff d).current_metrics.A ≤ 100
    ∧ 0 ≤ (decayAndBonusStep staff d).current_metrics.C
    ∧ (decayAndBonusStep staff d).current_metrics.C ≤ 100 := by
  have hr : 0 ≤ effectiveDecayRate d :=
    le_trans (by norm_num) (le_max_left (1/100) _)
  have hdec := applyMetricDecay_range d (effectiveDecayRate d) hr h
  unfold decayAndBonusStep
  by_cases hs : staff.length > 0
  · simp only [hs, if_true]
    exact applyStaffBonuses_range _ staff hstaff hdec
  · simp only [hs, if_false]
    exact hdec

/-- The cumulative incident-impact fold keeps metrics in [0,100] when
every impact is componentwise nonpositive. -/
lemma impactFold_range :
    ∀ (incs : List Incident),
      (∀ i ∈ incs, i.metric_impact.T ≤ 0
        ∧ i.metric_impact.A ≤ 0 ∧ i.metric_impact.C ≤ 0) →
      ∀ m : Metrics, 0 ≤ m.T → m.T ≤ 100 → 0 ≤ m.A → m.A ≤ 100 →
        0 ≤ m.C → m.C ≤ 100 →
        0 ≤ (incs.foldl
            (fun m incident =>
              ({ T := max 0 (m.T + incident.metric_impact.T)
                 A := max 0 (m.A + incident.metric_impact.A)
                 C := max 0 (m.C + incident.metric_impact.C) } : Metrics)) m).T
        ∧ (incs.foldl
            (fun m incident =>
              ({ T := max 0 (m.T + incident.metric_impact.T)
                 A := max 0 (m.A + incident.metric_impact.A)
                 C := max 0 (m.C + incident.metric_impact.C) } : Metrics)) m).T ≤ 100
        ∧ 0 ≤ (incs.foldl
            (fun m incident =>
              ({ T := max 0 (m.T + incident.metric_impact.T)
                 A := max 0 (m.A + incident.metric_impact.A)
                 C := max 0 (m.C + incident.metric_impact.C) } : Metrics)) m).A
        ∧ (incs.foldl
            (fun m incident =>
              ({ T := max 0 (m.T + incident.metric_impact.T)
                 A := max 0 (m.A + incident.metric_impact.A)
                 C := max 0 (m.C + incident.metric_impact.C) } : Metrics)) m).A ≤ 100
        ∧ 0 ≤ (incs.foldl
            (fun m incident =>
              ({ T := max 0 (m.T + incident.metric_impact.T)
                 A := max 0 (m.A + incident.metric_impact.A)
                 C := max 0 (m.C + incident.metric_impact.C) } : Metrics)) m).C
        ∧ (incs.foldl
            (fun m incident =>
              ({ T := max 0 (m.T + incident.metric_impact.T)
                 A := max 0 (m.A + incident.metric_impact.A)
                 C := max 0 (m.C + incident.metric_impact.C) } : Metrics)) m).C ≤ 100 := by
  intro incs
  induction incs with
  | nil =>
    intro _ m h1 h2 h3 h4 h5 h6
    exact ⟨h1, h2, h3, h4, h5, h6⟩
  | cons i t ih =>
    intro hincs m h1 h2 h3 h4 h5 h6
    have hi := hincs i (List.mem_cons_self i t)
    simp only [List.foldl_cons]
    exact ih (fun x hx => hincs x (List.mem_cons_of_mem i hx)) _
      (le_max_left 0 _) (by dsimp; exact max_le (by norm_num) (by linarith [hi.1]))
      (le_max_left 0 _) (by dsimp; exact max_le (by norm_num) (by linarith [hi.2.1]))
      (le_max_left 0 _) (by dsimp; exact max_le (by norm_num) (by linarith [hi.2.2]))

/-- Applying incident impacts keeps metrics in [0,100] when every
impact in the source list is componentwise nonpositive. -/
lemma applyIncidentImpactsTo_range (incs : List Incident) (d : Dataset)
    (hincs : ∀ i ∈ incs, i.metric_impact.T ≤ 0
      ∧ i.metric_impact.A ≤ 0 ∧ i.metric_impact.C ≤ 0)
    (h : 0 ≤ d.current_metrics.T ∧ d.current_metrics.T ≤ 100
      ∧ 0 ≤ d.current_metrics.A ∧ d.current_metrics.A ≤ 100
      ∧ 0 ≤ d.current_metrics.C ∧ d.current_metrics.C ≤ 100) :
    0 ≤ (applyIncidentImpactsTo incs d).current_metrics.T
    ∧ (applyIncidentImpactsTo incs d).current_metrics.T ≤ 100
    ∧ 0 ≤ (applyIncidentImpactsTo incs d).current_metrics.A
    ∧ (applyIncidentImpactsTo incs d).current_metrics.A ≤ 100
    ∧ 0 ≤ (applyIncidentImpactsTo incs d).current_metrics.C
    ∧ (applyIncidentImpactsTo incs d).current_metrics.C ≤ 100 := by
  unfold applyIncidentImpactsTo
  by_cases he : ((incs.filter fun incident => incident.dataset_id == d.id)).isEmpty
  · simp only [he, if_true]
    exact h
  · simp only [he, if_false]
    obtain ⟨h1, h2, h3, h4, h5, h6⟩ := h
    exact impactFold_range _
      (fun x hx => hincs x (List.mem_of_mem_filter hx)) _ h1 h2 h3 h4 h5 h6

/-- Every surviving incident's metric impact is componentwise
nonpositive when every input incident's is: advancing progress does not
touch the impact. -/
lemma survivors_impacts_nonpos (l : List Incident) (staff : List Staff)
    (hinc : ∀ i ∈ l, i.metric_impact.T ≤ 0
      ∧ i.metric_impact.A ≤ 0 ∧ i.metric_impact.C ≤ 0) :
    ∀ j ∈ survivors l staff, j.metric_impact.T ≤ 0
      ∧ j.metric_impact.A ≤ 0 ∧ j.metric_impact.C ≤ 0 := by
  intro j hj
  simp only [survivors, List.mem_filter, List.mem_map] at hj
  obtain ⟨⟨i, hi, rfl⟩, -⟩ := hj
  exact hinc i hi

/-- The clamped SLA always lies in [0,100]. -/
lemma calculateSLA_range (m : Metrics) :
    0 ≤ calculateSLA m ∧ calculateSLA m ≤ 100 :=
  ⟨le_max_left 0 _, max_le (by norm_num) (min_le_left _ _)⟩

/-- C7: on an active tick, if every input dataset's metrics lie in
[0,100], every staff metric bonus is nonnegative, and every incident's
metric impact is nonpositive, then every output dataset's metrics and
stored SLA lie in [0,100]. -/
theorem c7_metrics_and_sla_in_range (state : TickState) (rng : Rng)
    (hev : state.currentEvent = none)
    (hds : ∀ d ∈ state.datasets,
      0 ≤ d.current_metrics.T ∧ d.current_metrics.T ≤ 100
      ∧ 0 ≤ d.current_metrics.A ∧ d.current_metrics.A ≤ 100
      ∧ 0 ≤ d.current_metrics.C ∧ d.current_metrics.C ≤ 100)
    (hstaff : ∀ m ∈ state.staff, 0 ≤ m.effects.global_T_bonus
      ∧ 0 ≤ m.effects.global_A_bonus ∧ 0 ≤ m.effects.global_C_bonus)
    (hinc : ∀ i ∈ state.activeIncidents, i.metric_impact.T ≤ 0
      ∧ i.metric_impact.A ≤ 0 ∧ i.metric_impact.C ≤ 0) :
    ∀ d ∈ (processTick state rng).updatedDatasets,
      0 ≤ d.current_metrics.T ∧ d.current_metrics.T ≤ 100
      ∧ 0 ≤ d.current_metrics.A ∧ d.current_metrics.A ≤ 100
      ∧ 0 ≤ d.current_metrics.C ∧ d.current_metrics.C ≤ 100
      ∧ 0 ≤ d.currentSLA ∧ d.currentSLA ≤ 100 := by
  intro d hd
  rw [processTick_active state rng hev] at hd
  dsimp only at hd
  simp only [List.mem_map] at hd
  obtain ⟨d2, ⟨d1, ⟨d0, hd0, rfl⟩, rfl⟩, rfl⟩ := hd
  have hb1 := decayAndBonusStep_range state.staff d0 hstaff (hds d0 hd0)
  have hb2 := applyIncidentImpactsTo_range
    (survivors state.activeIncidents state.staff) (decayAndBonusStep state.staff d0)
    (survivors_impacts_nonpos state.activeIncidents state.staff hinc) hb1
  have hsla := calculateSLA_range
    (applyIncidentImpactsTo (survivors state.activeIncidents state.staff)
      (decayAndBonusStep state.staff d0)).current_metrics
  exact ⟨hb2.1, hb2.2.1, hb2.2.2.1, hb2.2.2.2.1, hb2.2.2.2.2.1, hb2.2.2.2.2.2,
    hsla.1, hsla.2⟩

/-- Witness for C7 at the concrete snapshot with metrics 50/50/50, no
staff, and a negative-impact incident. -/
theorem c7_metrics_and_sla_in_range_witness :
    c1State.currentEvent = none
    ∧ ∀ d ∈ (processTick c1State constRng).updatedDatasets,
      0 ≤ d.current_metrics.T ∧ d.current_metrics.T ≤ 100
      ∧ 0 ≤ d.current_metrics.A ∧ d.current_metrics.A ≤ 100
      ∧ 0 ≤ d.current_metrics.C ∧ d.current_metrics.C ≤ 100
      ∧ 0 ≤ d.currentSLA ∧ d.currentSLA ≤ 100 :=
  ⟨rfl, c7_metrics_and_sla_in_range c1State constRng rfl (by decide) (by decide) (by decide)⟩

end DataEmpire
